import Mathlib

/-!
Verification of the options layer of the RNTuple storage engine
(`tree/ntuple/v7/inc/ROOT/RNTupleOptions.hxx`): the write options
(`RNTupleWriteOptions`), the DAOS-specific extension
(`RNTupleWriteOptionsDaos`) and the read options (`RNTupleReadOptions`),
together with the polymorphic `Clone` operation, modelled over an explicit
object heap so that ownership and independence of clones are provable.

C++ machine integers are modelled as `Nat` with explicit reduction
modulo `2 ^ 32` where the source uses `uint32_t`; `std::size_t` values are
modelled as `Nat` (all setters store them unmodified); the C++ `int`
compression setting is modelled as `Int`.
-/

/-- Modelled from the spec: the packed general-purpose default compression
setting `RCompressionSetting::EDefaults::kUseGeneralPurpose`. It is declared
in `Compression.h`, outside the modelled excerpt; the options layer treats it
as an opaque packed algorithm-plus-level constant, so its concrete value is
irrelevant to the theorems below. -/
def kUseGeneralPurpose : Int := 101

/-- Modelled from the spec: `CompressionSettings` is declared in
`Compression.h`, outside the modelled excerpt. The spec describes it as
composing a packed setting from an algorithm enum value and an integer
compression level; the algorithm enum value is modelled as a `Nat`. -/
def CompressionSettings (algorithm : Nat) (compressionLevel : Int) : Int :=
  Int.ofNat algorithm * 100 + compressionLevel

/-- The common user-tunable settings for storing ntuples
(`class RNTupleWriteOptions`), one field per C++ data member. -/
structure RNTupleWriteOptions where
  fCompression : Int
  fApproxZippedClusterSize : Nat
  fMaxUnzippedClusterSize : Nat
  fApproxUnzippedPageSize : Nat
  fUseBufferedWrite : Bool
  fHasSmallClusters : Bool
deriving DecidableEq

/-- `static constexpr std::uint64_t kMaxSmallClusterSize = 512 * 1024 * 1024;` -/
def RNTupleWriteOptions.kMaxSmallClusterSize : Nat := 512 * 1024 * 1024

/-- The default-constructed `RNTupleWriteOptions`, with the in-class member
initializers of the C++ source. -/
def RNTupleWriteOptions.mkDefault : RNTupleWriteOptions :=
  ⟨kUseGeneralPurpose, 50 * 1000 * 1000, 512 * 1024 * 1024, 64 * 1024, true, false⟩

def RNTupleWriteOptions.GetCompression (o : RNTupleWriteOptions) : Int :=
  o.fCompression

/-- `void SetCompression(int val) { fCompression = val; }` -/
def RNTupleWriteOptions.SetCompression (o : RNTupleWriteOptions) (val : Int) :
    RNTupleWriteOptions :=
  { o with fCompression := val }

/-- The overload `SetCompression(EAlgorithm::EValues algorithm, int
compressionLevel)`: `fCompression = CompressionSettings(algorithm,
compressionLevel);`. -/
def RNTupleWriteOptions.SetCompressionAlgoLevel (o : RNTupleWriteOptions)
    (algorithm : Nat) (compressionLevel : Int) : RNTupleWriteOptions :=
  { o with fCompression := CompressionSettings algorithm compressionLevel }

def RNTupleWriteOptions.GetApproxZippedClusterSize (o : RNTupleWriteOptions) : Nat :=
  o.fApproxZippedClusterSize

/-- Modelled from the spec: `SetApproxZippedClusterSize` is declared in the
header but its body lives in `RNTupleOptions.cxx`, outside the modelled
excerpt. The spec requires that setting the three size fields in any order and
reading them back returns exactly the set values, so the setter is plain field
assignment, with any cross-field validation deferred to session-open time. -/
def RNTupleWriteOptions.SetApproxZippedClusterSize (o : RNTupleWriteOptions)
    (val : Nat) : RNTupleWriteOptions :=
  { o with fApproxZippedClusterSize := val }

def RNTupleWriteOptions.GetMaxUnzippedClusterSize (o : RNTupleWriteOptions) : Nat :=
  o.fMaxUnzippedClusterSize

/-- Modelled from the spec: `SetMaxUnzippedClusterSize` is declared in the
header but its body lives in `RNTupleOptions.cxx`, outside the modelled
excerpt; modelled as plain field assignment, like the other size setters. -/
def RNTupleWriteOptions.SetMaxUnzippedClusterSize (o : RNTupleWriteOptions)
    (val : Nat) : RNTupleWriteOptions :=
  { o with fMaxUnzippedClusterSize := val }

def RNTupleWriteOptions.GetApproxUnzippedPageSize (o : RNTupleWriteOptions) : Nat :=
  o.fApproxUnzippedPageSize

/-- Modelled from the spec: `SetApproxUnzippedPageSize` is declared in the
header but its body lives in `RNTupleOptions.cxx`, outside the modelled
excerpt; modelled as plain field assignment, like the other size setters. -/
def RNTupleWriteOptions.SetApproxUnzippedPageSize (o : RNTupleWriteOptions)
    (val : Nat) : RNTupleWriteOptions :=
  { o with fApproxUnzippedPageSize := val }

def RNTupleWriteOptions.GetUseBufferedWrite (o : RNTupleWriteOptions) : Bool :=
  o.fUseBufferedWrite

/-- `void SetUseBufferedWrite(bool val) { fUseBufferedWrite = val; }` -/
def RNTupleWriteOptions.SetUseBufferedWrite (o : RNTupleWriteOptions) (val : Bool) :
    RNTupleWriteOptions :=
  { o with fUseBufferedWrite := val }

def RNTupleWriteOptions.GetHasSmallClusters (o : RNTupleWriteOptions) : Bool :=
  o.fHasSmallClusters

/-- `void SetHasSmallClusters(bool val) { fHasSmallClusters = val; }` — no
validation of the resulting combination happens in this setter. -/
def RNTupleWriteOptions.SetHasSmallClusters (o : RNTupleWriteOptions) (val : Bool) :
    RNTupleWriteOptions :=
  { o with fHasSmallClusters := val }

/-- Modelled from the spec: the engine that opens a write session rejects a
configuration that requests small clusters while advertising
`MaxUnzippedClusterSize` above `kMaxSmallClusterSize` (the reject-on-open
policy of spec section 7; the consuming engine is outside the modelled
excerpt). Returns `false` on the invalid combination. -/
def RNTupleWriteOptions.validAtSessionOpen (o : RNTupleWriteOptions) : Bool :=
  !(o.fHasSmallClusters &&
    decide (RNTupleWriteOptions.kMaxSmallClusterSize < o.fMaxUnzippedClusterSize))

/-- The DAOS-specific user-tunable settings
(`class RNTupleWriteOptionsDaos : public RNTupleWriteOptions`); the base-class
subobject is the `toRNTupleWriteOptions` field. `fMaxCageSize` is a
`uint32_t`, kept below `2 ^ 32`. -/
structure RNTupleWriteOptionsDaos extends RNTupleWriteOptions where
  fObjectClass : String
  fMaxCageSize : Nat
deriving DecidableEq

/-- The default-constructed `RNTupleWriteOptionsDaos`: the base subobject is
default-constructed first, then `fObjectClass{"SX"}` and
`fMaxCageSize = 16 * RNTupleWriteOptions::fApproxUnzippedPageSize` (which at
that point holds its default value). -/
def RNTupleWriteOptionsDaos.mkDefault : RNTupleWriteOptionsDaos :=
  ⟨RNTupleWriteOptions.mkDefault, "SX",
    (16 * RNTupleWriteOptions.mkDefault.fApproxUnzippedPageSize) % 2 ^ 32⟩

def RNTupleWriteOptionsDaos.GetObjectClass (o : RNTupleWriteOptionsDaos) : String :=
  o.fObjectClass

/-- `void SetObjectClass(const std::string &val) { fObjectClass = val; }` —
the string is stored verbatim, with no validation of any kind. -/
def RNTupleWriteOptionsDaos.SetObjectClass (o : RNTupleWriteOptionsDaos)
    (val : String) : RNTupleWriteOptionsDaos :=
  { o with fObjectClass := val }

def RNTupleWriteOptionsDaos.GetMaxCageSize (o : RNTupleWriteOptionsDaos) : Nat :=
  o.fMaxCageSize

/-- `void SetMaxCageSize(uint32_t cageSz) { fMaxCageSize = cageSz; }` — plain
assignment of the 32-bit argument, no validation. -/
def RNTupleWriteOptionsDaos.SetMaxCageSize (o : RNTupleWriteOptionsDaos)
    (cageSz : Nat) : RNTupleWriteOptionsDaos :=
  { o with fMaxCageSize := cageSz % 2 ^ 32 }

/-- A heap-allocated write-options object together with its dynamic type:
either a plain `RNTupleWriteOptions` or an `RNTupleWriteOptionsDaos`. Virtual
dispatch through a base-type reference is modelled by matching on the
constructor. -/
inductive RNTupleWriteOptionsObj where
  | mkBase (o : RNTupleWriteOptions)
  | mkDaos (o : RNTupleWriteOptionsDaos)
deriving DecidableEq

/-- The virtual `Clone()` operation, dispatched on the dynamic type.
The base case is modelled from the spec: `RNTupleWriteOptions::Clone` is
declared in the header but defined in `RNTupleOptions.cxx`, outside the
modelled excerpt; per the spec it returns a new, independently owned,
field-wise copy of the same dynamic type. The `mkDaos` case is the override
from the header: `return std::make_unique<RNTupleWriteOptionsDaos>(*this);`,
i.e. a member-wise copy that keeps the DAOS dynamic type. -/
def RNTupleWriteOptionsObj.Clone :
    RNTupleWriteOptionsObj → RNTupleWriteOptionsObj
  | RNTupleWriteOptionsObj.mkBase o => RNTupleWriteOptionsObj.mkBase o
  | RNTupleWriteOptionsObj.mkDaos o => RNTupleWriteOptionsObj.mkDaos o

/-- One call to a setter of the options interface, used to quantify over
"mutating any field". -/
inductive WriteMutation where
  | setCompression (v : Int)
  | setCompressionAlgoLevel (a : Nat) (l : Int)
  | setApproxZippedClusterSize (v : Nat)
  | setMaxUnzippedClusterSize (v : Nat)
  | setApproxUnzippedPageSize (v : Nat)
  | setUseBufferedWrite (v : Bool)
  | setHasSmallClusters (v : Bool)
  | setObjectClass (s : String)
  | setMaxCageSize (v : Nat)
deriving DecidableEq

/-- Apply a setter call to a plain `RNTupleWriteOptions` object. The two
DAOS-only setters do not exist on the base interface and leave it unchanged. -/
def applyMutationBase (m : WriteMutation) (o : RNTupleWriteOptions) :
    RNTupleWriteOptions :=
  match m with
  | WriteMutation.setCompression v => o.SetCompression v
  | WriteMutation.setCompressionAlgoLevel a l => o.SetCompressionAlgoLevel a l
  | WriteMutation.setApproxZippedClusterSize v => o.SetApproxZippedClusterSize v
  | WriteMutation.setMaxUnzippedClusterSize v => o.SetMaxUnzippedClusterSize v
  | WriteMutation.setApproxUnzippedPageSize v => o.SetApproxUnzippedPageSize v
  | WriteMutation.setUseBufferedWrite v => o.SetUseBufferedWrite v
  | WriteMutation.setHasSmallClusters v => o.SetHasSmallClusters v
  | WriteMutation.setObjectClass _ => o
  | WriteMutation.setMaxCageSize _ => o

/-- Apply a setter call to a heap object: inherited setters mutate the base
subobject of a DAOS object, DAOS-only setters mutate its own fields. -/
def applyMutationObj (m : WriteMutation) :
    RNTupleWriteOptionsObj → RNTupleWriteOptionsObj
  | RNTupleWriteOptionsObj.mkBase o =>
      RNTupleWriteOptionsObj.mkBase (applyMutationBase m o)
  | RNTupleWriteOptionsObj.mkDaos d =>
      match m with
      | WriteMutation.setObjectClass s =>
          RNTupleWriteOptionsObj.mkDaos (d.SetObjectClass s)
      | WriteMutation.setMaxCageSize v =>
          RNTupleWriteOptionsObj.mkDaos (d.SetMaxCageSize v)
      | m2 =>
          RNTupleWriteOptionsObj.mkDaos
            { d with toRNTupleWriteOptions :=
                applyMutationBase m2 d.toRNTupleWriteOptions }

/-- Clone the object stored at address `i` of the heap: the fresh copy is
allocated at a fresh address (the end of the heap), whose index is returned
with the new heap. An out-of-range address leaves the heap unchanged. -/
def heapCloneAt (h : List RNTupleWriteOptionsObj) (i : Nat) :
    List RNTupleWriteOptionsObj × Nat :=
  match h[i]? with
  | some o => (h ++ [o.Clone], h.length)
  | none => (h, i)

/-- Apply a setter call to the object stored at address `i` of the heap,
leaving every other address untouched. -/
def heapMutateAt (h : List RNTupleWriteOptionsObj) (i : Nat)
    (m : WriteMutation) : List RNTupleWriteOptionsObj :=
  match h[i]? with
  | some o => h.set i (applyMutationObj m o)
  | none => h

/-- Fold a sequence of setter calls over an options value, left to right. -/
def applyMutationList (l : List WriteMutation) (o : RNTupleWriteOptions) :
    RNTupleWriteOptions :=
  l.foldl (fun acc m => applyMutationBase m acc) o

/-- The six orders in which the three size setters can be called with values
`p` (page size), `z` (zipped cluster size) and `m` (max unzipped cluster
size). -/
def sixSizeOrders (p z m : Nat) : List (List WriteMutation) :=
  [[WriteMutation.setApproxUnzippedPageSize p,
    WriteMutation.setApproxZippedClusterSize z,
    WriteMutation.setMaxUnzippedClusterSize m],
   [WriteMutation.setApproxUnzippedPageSize p,
    WriteMutation.setMaxUnzippedClusterSize m,
    WriteMutation.setApproxZippedClusterSize z],
   [WriteMutation.setApproxZippedClusterSize z,
    WriteMutation.setApproxUnzippedPageSize p,
    WriteMutation.setMaxUnzippedClusterSize m],
   [WriteMutation.setApproxZippedClusterSize z,
    WriteMutation.setMaxUnzippedClusterSize m,
    WriteMutation.setApproxUnzippedPageSize p],
   [WriteMutation.setMaxUnzippedClusterSize m,
    WriteMutation.setApproxUnzippedPageSize p,
    WriteMutation.setApproxZippedClusterSize z],
   [WriteMutation.setMaxUnzippedClusterSize m,
    WriteMutation.setApproxZippedClusterSize z,
    WriteMutation.setApproxUnzippedPageSize p]]

/-- The cluster-cache policy enum `RNTupleReadOptions::EClusterCache`
(`kDefault = kOn` is an alias, modelled as a definition below). -/
inductive EClusterCache where
  | kOff
  | kOn
deriving DecidableEq

/-- `kDefault = kOn` in the C++ enum. -/
def EClusterCache.kDefault : EClusterCache := EClusterCache.kOn

/-- The common user-tunable settings for reading ntuples
(`class RNTupleReadOptions`). `fClusterBunchSize` is an `unsigned int`, kept
below `2 ^ 32`. -/
structure RNTupleReadOptions where
  fClusterCache : EClusterCache
  fClusterBunchSize : Nat
deriving DecidableEq

/-- The default-constructed `RNTupleReadOptions`:
`fClusterCache = EClusterCache::kDefault`, `fClusterBunchSize = 1`. -/
def RNTupleReadOptions.mkDefault : RNTupleReadOptions :=
  ⟨EClusterCache.kDefault, 1⟩

def RNTupleReadOptions.GetClusterCache (o : RNTupleReadOptions) : EClusterCache :=
  o.fClusterCache

/-- `void SetClusterCache(EClusterCache val) { fClusterCache = val; }` -/
def RNTupleReadOptions.SetClusterCache (o : RNTupleReadOptions)
    (val : EClusterCache) : RNTupleReadOptions :=
  { o with fClusterCache := val }

def RNTupleReadOptions.GetClusterBunchSize (o : RNTupleReadOptions) : Nat :=
  o.fClusterBunchSize

/-- `void SetClusterBunchSize(unsigned int val) { fClusterBunchSize = val; }` -/
def RNTupleReadOptions.SetClusterBunchSize (o : RNTupleReadOptions)
    (val : Nat) : RNTupleReadOptions :=
  { o with fClusterBunchSize := val % 2 ^ 32 }

/-- C1: a default-constructed `RNTupleWriteOptions` has exactly the documented
defaults: `Compression` equal to the general-purpose default setting,
`ApproxZippedClusterSize = 50,000,000`, `MaxUnzippedClusterSize = 512 MiB`,
`ApproxUnzippedPageSize = 64 KiB`, `UseBufferedWrite = true` and
`HasSmallClusters = false`. -/
theorem writeOptions_default_field_values :
    RNTupleWriteOptions.mkDefault.GetCompression = kUseGeneralPurpose ∧
    RNTupleWriteOptions.mkDefault.GetApproxZippedClusterSize = 50000000 ∧
    RNTupleWriteOptions.mkDefault.GetMaxUnzippedClusterSize = 512 * 1024 * 1024 ∧
    RNTupleWriteOptions.mkDefault.GetApproxUnzippedPageSize = 64 * 1024 ∧
    RNTupleWriteOptions.mkDefault.GetUseBufferedWrite = true ∧
    RNTupleWriteOptions.mkDefault.GetHasSmallClusters = false :=
  ⟨rfl, rfl, rfl, rfl, rfl, rfl⟩

/-- C2: cloning an `RNTupleWriteOptionsDaos` through the virtual base-type
interface yields an independently owned copy (allocated at a fresh heap
address) whose dynamic type is `mkDaos` and which exposes through the derived
interface the same `ObjectClass`, `MaxCageSize` and inherited field values as
the original; mutating the copy leaves the original untouched. -/
theorem daos_clone_preserves_dynamic_type (d : RNTupleWriteOptionsDaos)
    (m : WriteMutation) :
    ∃ d2 : RNTupleWriteOptionsDaos,
      heapCloneAt [RNTupleWriteOptionsObj.mkDaos d] 0 =
        ([RNTupleWriteOptionsObj.mkDaos d, RNTupleWriteOptionsObj.mkDaos d2], 1) ∧
      d2.GetObjectClass = d.GetObjectClass ∧
      d2.GetMaxCageSize = d.GetMaxCageSize ∧
      d2.toRNTupleWriteOptions = d.toRNTupleWriteOptions ∧
      (heapMutateAt [RNTupleWriteOptionsObj.mkDaos d,
          RNTupleWriteOptionsObj.mkDaos d2] 1 m)[0]? =
        some (RNTupleWriteOptionsObj.mkDaos d) :=
  ⟨d, rfl, rfl, rfl, rfl, rfl⟩

/-- C3: `Clone()` on an `RNTupleWriteOptions` returns a new object equal to
the original in every field (the cloned heap cell holds the very same field
values), and the clone is independently mutable: any setter applied at the
address of the clone leaves the original unchanged, and vice versa. -/
theorem writeOptions_clone_equal_and_independent (o : RNTupleWriteOptions)
    (m : WriteMutation) :
    heapCloneAt [RNTupleWriteOptionsObj.mkBase o] 0 =
      ([RNTupleWriteOptionsObj.mkBase o, RNTupleWriteOptionsObj.mkBase o], 1) ∧
    (heapMutateAt [RNTupleWriteOptionsObj.mkBase o,
        RNTupleWriteOptionsObj.mkBase o] 1 m)[0]? =
      some (RNTupleWriteOptionsObj.mkBase o) ∧
    (heapMutateAt [RNTupleWriteOptionsObj.mkBase o,
        RNTupleWriteOptionsObj.mkBase o] 0 m)[1]? =
      some (RNTupleWriteOptionsObj.mkBase o) :=
  ⟨rfl, rfl, rfl⟩

/-- C4: for every triple `(p, z, m)` of sizes with `p ≤ z ≤ m`, calling
`SetApproxUnzippedPageSize p`, `SetApproxZippedClusterSize z` and
`SetMaxUnzippedClusterSize m` in any of the six orders and reading the three
values back with the getters returns exactly `(p, z, m)`. -/
theorem sizeSetters_any_order_roundtrip (p z m : Nat) (h1 : p ≤ z)
    (h2 : z ≤ m) :
    ∀ l ∈ sixSizeOrders p z m,
      (applyMutationList l RNTupleWriteOptions.mkDefault).GetApproxUnzippedPageSize = p ∧
      (applyMutationList l RNTupleWriteOptions.mkDefault).GetApproxZippedClusterSize = z ∧
      (applyMutationList l RNTupleWriteOptions.mkDefault).GetMaxUnzippedClusterSize = m := by
  intro l hl
  simp only [sixSizeOrders, List.mem_cons, List.not_mem_nil, or_false] at hl
  rcases hl with rfl | rfl | rfl | rfl | rfl | rfl <;> exact ⟨rfl, rfl, rfl⟩

/-- Witness for C4 at the triple `(1, 2, 3)` and one concrete call order. -/
theorem sizeSetters_any_order_roundtrip_witness :
    ((1 : Nat) ≤ 2 ∧ (2 : Nat) ≤ 3) ∧
    ((applyMutationList [WriteMutation.setMaxUnzippedClusterSize 3,
        WriteMutation.setApproxZippedClusterSize 2,
        WriteMutation.setApproxUnzippedPageSize 1]
        RNTupleWriteOptions.mkDefault).GetApproxUnzippedPageSize = 1 ∧
      (applyMutationList [WriteMutation.setMaxUnzippedClusterSize 3,
        WriteMutation.setApproxZippedClusterSize 2,
        WriteMutation.setApproxUnzippedPageSize 1]
        RNTupleWriteOptions.mkDefault).GetApproxZippedClusterSize = 2 ∧
      (applyMutationList [WriteMutation.setMaxUnzippedClusterSize 3,
        WriteMutation.setApproxZippedClusterSize 2,
        WriteMutation.setApproxUnzippedPageSize 1]
        RNTupleWriteOptions.mkDefault).GetMaxUnzippedClusterSize = 3) :=
  ⟨⟨by decide, by decide⟩,
    sizeSetters_any_order_roundtrip 1 2 3 (by decide) (by decide)
      [WriteMutation.setMaxUnzippedClusterSize 3,
       WriteMutation.setApproxZippedClusterSize 2,
       WriteMutation.setApproxUnzippedPageSize 1] (by decide)⟩

/-- C5: a configuration with `HasSmallClusters = true` and
`MaxUnzippedClusterSize` above `kMaxSmallClusterSize` is detectably exposed as
invalid at session-open time (`validAtSessionOpen = false`), in both orders in
which the two setters can be called. -/
theorem smallClusters_large_maxUnzipped_flagged_invalid
    (o : RNTupleWriteOptions) (v : Nat)
    (h : RNTupleWriteOptions.kMaxSmallClusterSize < v) :
    ((o.SetHasSmallClusters true).SetMaxUnzippedClusterSize v).validAtSessionOpen
      = false ∧
    ((o.SetMaxUnzippedClusterSize v).SetHasSmallClusters true).validAtSessionOpen
      = false := by
  constructor <;>
    simp [RNTupleWriteOptions.validAtSessionOpen,
      RNTupleWriteOptions.SetHasSmallClusters,
      RNTupleWriteOptions.SetMaxUnzippedClusterSize, h]

/-- Witness for C5 at `v = kMaxSmallClusterSize + 1 = 536870913` starting from
the default options. -/
theorem smallClusters_flagged_invalid_witness :
    RNTupleWriteOptions.kMaxSmallClusterSize < 536870913 ∧
    ((RNTupleWriteOptions.mkDefault.SetHasSmallClusters
        true).SetMaxUnzippedClusterSize 536870913).validAtSessionOpen = false ∧
    ((RNTupleWriteOptions.mkDefault.SetMaxUnzippedClusterSize
        536870913).SetHasSmallClusters true).validAtSessionOpen = false :=
  ⟨by decide,
    smallClusters_large_maxUnzipped_flagged_invalid
      RNTupleWriteOptions.mkDefault 536870913 (by decide)⟩

/-- C6: a default-constructed `RNTupleWriteOptionsDaos` has
`ObjectClass = "SX"` and `MaxCageSize` equal to 16 times the default
`ApproxUnzippedPageSize`, i.e. `16 * 64 KiB = 1 MiB`. -/
theorem daosOptions_default_values :
    RNTupleWriteOptionsDaos.mkDefault.GetObjectClass = "SX" ∧
    RNTupleWriteOptionsDaos.mkDefault.GetMaxCageSize =
      16 * RNTupleWriteOptions.mkDefault.GetApproxUnzippedPageSize ∧
    RNTupleWriteOptionsDaos.mkDefault.GetMaxCageSize = 1024 * 1024 :=
  ⟨rfl, rfl, rfl⟩

/-- C7: `SetMaxCageSize` accepts every `uint32` value, including `0` and
values smaller than the configured `ApproxUnzippedPageSize`, without rejection
and without modifying any other field; `GetMaxCageSize` afterwards returns
exactly the value that was set. -/
theorem daos_setMaxCageSize_total_roundtrip (d : RNTupleWriteOptionsDaos)
    (v : Nat) (h : v < 2 ^ 32) :
    (d.SetMaxCageSize v).GetMaxCageSize = v ∧
    (d.SetMaxCageSize v).GetObjectClass = d.GetObjectClass ∧
    (d.SetMaxCageSize v).toRNTupleWriteOptions = d.toRNTupleWriteOptions := by
  refine ⟨?_, rfl, rfl⟩
  simpa [RNTupleWriteOptionsDaos.SetMaxCageSize,
    RNTupleWriteOptionsDaos.GetMaxCageSize] using Nat.mod_eq_of_lt h

/-- Witness for C7 at `v = 0` (no page concatenation) on the default DAOS
options. -/
theorem daos_setMaxCageSize_roundtrip_witness :
    (0 : Nat) < 2 ^ 32 ∧
    (RNTupleWriteOptionsDaos.mkDefault.SetMaxCageSize 0).GetMaxCageSize = 0 ∧
    (RNTupleWriteOptionsDaos.mkDefault.SetMaxCageSize 0).GetObjectClass =
      RNTupleWriteOptionsDaos.mkDefault.GetObjectClass ∧
    (RNTupleWriteOptionsDaos.mkDefault.SetMaxCageSize 0).toRNTupleWriteOptions =
      RNTupleWriteOptionsDaos.mkDefault.toRNTupleWriteOptions :=
  ⟨by decide,
    daos_setMaxCageSize_total_roundtrip RNTupleWriteOptionsDaos.mkDefault 0
      (by decide)⟩

/-- C8: a default-constructed `RNTupleReadOptions` has `ClusterCache = kOn`
(which equals the enum alias `kDefault`) and `ClusterBunchSize = 1`; and for
any `RNTupleReadOptions`, `SetClusterCache kOff` followed by
`GetClusterCache` returns `kOff`. -/
theorem readOptions_defaults_and_cache_off (o : RNTupleReadOptions) :
    RNTupleReadOptions.mkDefault.GetClusterCache = EClusterCache.kOn ∧
    EClusterCache.kDefault = EClusterCache.kOn ∧
    RNTupleReadOptions.mkDefault.GetClusterBunchSize = 1 ∧
    (o.SetClusterCache EClusterCache.kOff).GetClusterCache = EClusterCache.kOff :=
  ⟨rfl, rfl, rfl, rfl⟩

/-- C9: the two compression setters have the stated semantics: the raw form
stores the packed setting so that `GetCompression` returns it, and the
algorithm-plus-level form stores the value packed by `CompressionSettings`,
which `GetCompression` then returns. -/
theorem setCompression_both_forms (o : RNTupleWriteOptions) (v : Int)
    (algorithm : Nat) (compressionLevel : Int) :
    (o.SetCompression v).GetCompression = v ∧
    (o.SetCompressionAlgoLevel algorithm compressionLevel).GetCompression =
      CompressionSettings algorithm compressionLevel :=
  ⟨rfl, rfl⟩

/-- C10: `SetObjectClass` performs no validation at all: every string,
including the empty string, is stored verbatim without modifying any other
field, and `GetObjectClass` afterwards returns exactly that string. -/
theorem daos_setObjectClass_stores_verbatim (d : RNTupleWriteOptionsDaos)
    (s : String) :
    (d.SetObjectClass s).GetObjectClass = s ∧
    (d.SetObjectClass s).GetMaxCageSize = d.GetMaxCageSize ∧
    (d.SetObjectClass s).toRNTupleWriteOptions = d.toRNTupleWriteOptions ∧
    (RNTupleWriteOptionsDaos.mkDefault.SetObjectClass ("")).GetObjectClass = "" :=
  ⟨rfl, rfl, rfl, rfl⟩
